import Mathlib

/-!
Shallow embedding of the PlayPDF playback scheduler.

The embedded code is the `App` component of the repository's main source
file: `processFile`, `stopPlayback` and `startPlayback`, together with the
data model of `src/types.ts`.  JavaScript numbers are modelled as rationals
(`ℚ`); where the JavaScript value NaN matters (the `||` fallback in
`processFile`) an explicit `JsNum` type with a NaN constructor is used.
Timer callbacks (the per-note `setTimeout` closures and the progress
`setInterval` closure) are modelled as explicit functions over the mutable
state they read at fire time.
-/

/-- `Note` from src/types.ts: pitch, start time in beats, duration in beats.
(The optional `velocity` field is never read by the playback code and is
omitted.) -/
structure Note where
  pitch : String
  time : ℚ
  duration : ℚ
deriving DecidableEq, Repr

/-- `Score` from src/types.ts. -/
structure Score where
  title : String
  bpm : ℚ
  notes : List Note
deriving DecidableEq, Repr

/-! ## TempoClock: beat/second conversions

`startPlayback` computes `beatDuration = 60 / tempo` (seconds per beat);
the forward direction multiplies by it (`note.time * beatDuration`), and
the progress interval divides by it
(`(now - startTime) / beatDuration`). -/

/-- Seconds per beat, as computed at the top of `startPlayback`:
`const beatDuration = 60 / tempo`. -/
def beatDurationOf (tempo : ℚ) : ℚ := 60 / tempo

/-- Forward conversion used for scheduling: beats to seconds. -/
def beatsToSeconds (beats tempo : ℚ) : ℚ := beats * beatDurationOf tempo

/-- Inverse conversion used by the progress interval: seconds to beats
(`elapsed = seconds / beatDuration`). -/
def secondsToBeats (seconds tempo : ℚ) : ℚ := seconds / beatDurationOf tempo

/-! ## JavaScript number model for the `||` fallback in `processFile`

`processFile` runs `setTempo(parsedScore.bpm || 120)`.  The JavaScript
`||` operator returns the right operand exactly when the left one is
falsy; for numbers the falsy values are `0`, `-0` and `NaN`. -/

/-- A JavaScript number as far as truthiness is concerned: either NaN or a
rational value. -/
inductive JsNum where
  | nan : JsNum
  | num : ℚ → JsNum
deriving DecidableEq, Repr

/-- JavaScript falsiness of a number: `0` and `NaN` are falsy. -/
def JsNum.falsy : JsNum → Bool
  | .nan => true
  | .num q => q == 0

/-- JavaScript `a || b` on numbers. -/
def jsOr (a b : JsNum) : JsNum := if a.falsy then b else a

/-- The tempo `processFile` installs on a successful transcription:
`setTempo(parsedScore.bpm || 120)`. -/
def tempoFromParsedScore (parsedBpm : JsNum) : JsNum := jsOr parsedBpm (.num 120)

/-! ## Playback state

The mutable state the playback code touches: the `tempo` React state, the
`score` state, the `isPlaying` state and `isPlayingRef` ref, the
`startTimeRef` ref, the `currentTime` state, and the array of pending
timeout handles `playbackTimeoutRef.current`. -/

/-- One pending `setTimeout` handle created by `startPlayback`.  The
closure captures the note and the session's `beatDuration` constant; the
delay passed to `setTimeout` is `note.time * beatDuration * 1000`
milliseconds. -/
structure Trigger where
  note : Note
  beatDuration : ℚ
  delayMs : ℚ
deriving DecidableEq, Repr

/-- The environment captured by one progress `setInterval` closure: the
session's `beatDuration` constant and the `score.notes` list it reads. -/
structure Session where
  beatDuration : ℚ
  notes : List Note
deriving DecidableEq, Repr

/-- The mutable state of the `App` component that the playback functions
read and write. -/
structure AppState where
  tempo : ℚ
  score : Option Score
  isPlaying : Bool
  isPlayingRef : Bool
  startTime : ℚ
  currentTime : ℚ
  timeouts : List Trigger
deriving DecidableEq, Repr

/-- The tempo slider's `onChange` handler: `setTempo(...)`. -/
def setTempoState (st : AppState) (t : ℚ) : AppState := { st with tempo := t }

/-- `stopPlayback`: clears the playing flag and state, cancels every
pending timeout (`forEach(clearTimeout)` then reset to `[]`), stops the
player, and resets `currentTime` to `0`. -/
def stopPlayback (st : AppState) : AppState :=
  { st with
    isPlayingRef := false
    isPlaying := false
    timeouts := []
    currentTime := 0 }

/-- The body of one per-note `setTimeout` callback, run when the timer
fires at clock instant `now`: if `isPlayingRef.current` is false it
returns without playing; otherwise it invokes the Sound Renderer
(`player.play(note.pitch, currentTime, { duration: note.duration *
beatDuration })`).  Returns the renderer invocation, if any, as
`(pitch, atClockTime, durationSeconds)`. -/
def fireTrigger (st : AppState) (trig : Trigger) (now : ℚ) :
    Option (String × ℚ × ℚ) :=
  if st.isPlayingRef then
    some (trig.note.pitch, now, trig.note.duration * trig.beatDuration)
  else
    none

/-- The `setTimeout` scheduling loop of `startPlayback`: one trigger per
note, with delay `note.time * beatDuration * 1000` milliseconds. -/
def scheduleTriggers (notes : List Note) (beatDuration : ℚ) : List Trigger :=
  notes.map fun n =>
    { note := n, beatDuration := beatDuration, delayMs := n.time * beatDuration * 1000 }

/-- `startPlayback`, run at audio-clock instant `now`.  `loadOk` is
whether `await Soundfont.instrument(...)` succeeds.  Returns the new state
together with the progress-interval closure it created (`none` when no
score is loaded or instrument loading threw before the interval was set
up).  Faithful points: it does NOT stop a prior session first; it appends
(`push`) the new timeouts to `playbackTimeoutRef.current`; the
`beatDuration` constant is computed once from the current `tempo` state
and captured by every closure. -/
def startPlayback (st : AppState) (now : ℚ) (loadOk : Bool) :
    AppState × Option Session :=
  match st.score with
  | none => (st, none)
  | some score =>
    let st1 : AppState :=
      { st with isPlaying := true, isPlayingRef := true, startTime := now }
    if loadOk then
      let beatDuration := beatDurationOf st.tempo
      let st2 : AppState :=
        { st1 with timeouts := st1.timeouts ++ scheduleTriggers score.notes beatDuration }
      (st2, some { beatDuration := beatDuration, notes := score.notes })
    else
      (stopPlayback st1, none)

/-- Outcome of one progress-interval tick. -/
inductive TickOutcome where
  | inactive : TickOutcome
  | progressed : TickOutcome
  | completed : TickOutcome
  | crashed : TickOutcome
deriving DecidableEq, Repr

/-- One tick of the progress `setInterval` callback created by
`startPlayback`, run at clock instant `now` over the captured session
environment `sess`.  Faithful points: it reads `isPlayingRef` and
`startTimeRef` (refs, i.e. current state) but `beatDuration` and
`score.notes` from the closure; it reads
`score.notes[score.notes.length - 1]` — on an empty list this is
`undefined` and the subsequent `.time` access throws a TypeError,
modelled as `.crashed`; the completion test is
`elapsed > lastNote.time + lastNote.duration + 1`, which calls
`stopPlayback()` and clears the interval. -/
def progressTick (st : AppState) (sess : Session) (now : ℚ) :
    AppState × TickOutcome :=
  if st.isPlayingRef then
    let elapsed := (now - st.startTime) / sess.beatDuration
    let st1 : AppState := { st with currentTime := elapsed }
    match sess.notes.getLast? with
    | none => (st1, .crashed)
    | some lastNote =>
      if elapsed > lastNote.time + lastNote.duration + 1 then
        (stopPlayback st1, .completed)
      else
        (st1, .progressed)
  else
    (st, .inactive)

/-- Session-relative dispatch instant of a scheduled trigger, in seconds:
the timer fires `delayMs` milliseconds after it was set. -/
def dispatchOffsetSeconds (trig : Trigger) : ℚ := trig.delayMs / 1000

/-- The maximum end beat over all notes, as the spec defines `endBeat`
(`max over all notes of (startBeat + durationBeats)`); `0` for an empty
list.  This is the spec's formula, kept for comparison with what the code
actually computes. -/
def specEndBeat (notes : List Note) : ℚ :=
  (notes.map fun n => n.time + n.duration).foldr max 0

/-! ## Concrete states and scores used by witnesses and counterexamples -/

/-- A fresh component state with a loaded score and a tempo, before any
playback: the shape of the state right after a successful transcription. -/
def mkIdleState (s : Score) (t : ℚ) : AppState :=
  { tempo := t, score := some s, isPlaying := false, isPlayingRef := false
    startTime := 0, currentTime := 0, timeouts := [] }

/-- The spec's worked example: notes [{C4,0,1},{E4,0,1},{G4,1,1}]. -/
def exampleScore : Score :=
  { title := "example", bpm := 120
    notes := [⟨"C4", 0, 1⟩, ⟨"E4", 0, 1⟩, ⟨"G4", 1, 1⟩] }

/-- A one-note score used for the double-start and tempo counterexamples. -/
def oneNoteScore : Score :=
  { title := "one", bpm := 120, notes := [⟨"G5", 0, 1⟩] }

/-- A score whose last listed note ends well before an earlier note does:
note 0 ends at beat 12, the last listed note at beat 1. -/
def unsortedScore : Score :=
  { title := "unsorted", bpm := 60, notes := [⟨"C4", 10, 2⟩, ⟨"E4", 0, 1⟩] }

/-- The spec's completion example: single note {A4, 10, 2}, end beat 12. -/
def a4Score : Score :=
  { title := "a4", bpm := 60, notes := [⟨"A4", 10, 2⟩] }

/-- A score with an empty note list. -/
def emptyScore : Score := { title := "empty", bpm := 120, notes := [] }

/-- A score whose first note has a negative start beat. -/
def malformedScore : Score :=
  { title := "mal", bpm := 120, notes := [⟨"C4", -5, 1⟩, ⟨"E4", 0, 1⟩] }

/-! ## C9: conversion round-trip -/

/-- C9: for positive bpm, converting beats to seconds and back is the
identity (exactly, over the rationals): `secondsToBeats (beatsToSeconds b
bpm) bpm = b`. -/
theorem C9_beats_seconds_roundtrip (b bpm : ℚ) (h : 0 < bpm) :
    secondsToBeats (beatsToSeconds b bpm) bpm = b := by
  have h60 : beatDurationOf bpm ≠ 0 := by
    unfold beatDurationOf
    positivity
  unfold secondsToBeats beatsToSeconds
  field_simp

/-- Witness for C9 at b = 7, bpm = 120. -/
theorem C9_beats_seconds_roundtrip_witness :
    (0:ℚ) < 120 ∧ secondsToBeats (beatsToSeconds 7 120) 120 = 7 :=
  ⟨by norm_num, C9_beats_seconds_roundtrip 7 120 (by norm_num)⟩

/-! ## C10: tempo fallback on transcription success -/

/-- C10: `setTempo(parsedScore.bpm || 120)` adopts the transcribed bpm
whenever it is a nonzero number, falls back to 120 when it is 0 or NaN,
and in particular adopts a negative bpm unchanged. -/
theorem C10_tempo_fallback :
    tempoFromParsedScore (.num 0) = .num 120 ∧
    tempoFromParsedScore .nan = .num 120 ∧
    tempoFromParsedScore (.num (-60)) = .num (-60) ∧
    ∀ q : ℚ, q ≠ 0 → tempoFromParsedScore (.num q) = .num q := by
  refine ⟨by decide, rfl, by decide, ?_⟩
  intro q hq
  simp [tempoFromParsedScore, jsOr, JsNum.falsy, hq]

/-- Witness for C10's universally quantified conjunct at q = 95. -/
theorem C10_tempo_fallback_witness :
    tempoFromParsedScore (.num 95) = .num 95 :=
  C10_tempo_fallback.2.2.2 95 (by norm_num)

/-! ## C2: stop silences the session -/

/-- C2: after `stopPlayback` returns, the pending-timeout list is empty
(every pending trigger cancelled), the playing flag is cleared, and any
trigger whose timer fires anyway observes the cleared flag and performs no
Sound Renderer invocation. -/
theorem C2_stop_silences (st : AppState) :
    (stopPlayback st).timeouts = [] ∧
    (stopPlayback st).isPlayingRef = false ∧
    ∀ (trig : Trigger) (now : ℚ), fireTrigger (stopPlayback st) trig now = none := by
  refine ⟨rfl, rfl, ?_⟩
  intro trig now
  simp [fireTrigger, stopPlayback]

/-! ## C1: one trigger per note, at `sessionStart + startBeat * 60/tempo` -/

/-- Indexing into the scheduled-trigger list recovers the per-note
scheduling formula. -/
lemma scheduleTriggers_get (notes : List Note) (bd : ℚ) (i : ℕ)
    (hi : i < (scheduleTriggers notes bd).length) (hi2 : i < notes.length) :
    (scheduleTriggers notes bd).get ⟨i, hi⟩
      = { note := notes.get ⟨i, hi2⟩, beatDuration := bd
          delayMs := (notes.get ⟨i, hi2⟩).time * bd * 1000 } := by
  simp [scheduleTriggers]

/-- C1: starting playback on a fresh state schedules exactly one trigger
per note of the score, and the i-th trigger's session-relative dispatch
offset (its `setTimeout` delay, in seconds) equals
`startBeat * (60 / tempo)`, i.e. its absolute dispatch instant is
`sessionStart + startBeat * beatDurationSeconds`. -/
theorem C1_trigger_instants (st : AppState) (s : Score) (now : ℚ)
    (hs : st.score = some s) (ht : st.timeouts = []) :
    ((startPlayback st now true).1.timeouts.length = s.notes.length) ∧
    ∀ (i : ℕ) (hi : i < ((startPlayback st now true).1.timeouts).length)
      (hi2 : i < s.notes.length),
      dispatchOffsetSeconds (((startPlayback st now true).1.timeouts).get ⟨i, hi⟩)
        = beatsToSeconds ((s.notes.get ⟨i, hi2⟩).time) st.tempo := by
  obtain ⟨t, sc, p, pr, stt, ct, tm⟩ := st
  simp only at hs ht
  subst hs
  subst ht
  constructor
  · simp [startPlayback, scheduleTriggers]
  · intro i hi hi2
    have hi3 : i < (scheduleTriggers s.notes (beatDurationOf t)).length := by
      simpa [startPlayback] using hi
    have hget : ((startPlayback
        ({ tempo := t, score := some s, isPlaying := p, isPlayingRef := pr
           startTime := stt, currentTime := ct, timeouts := [] } : AppState)
        now true).1.timeouts).get ⟨i, hi⟩
        = (scheduleTriggers s.notes (beatDurationOf t)).get ⟨i, hi3⟩ := by
      simp [startPlayback]
    rw [hget, scheduleTriggers_get s.notes (beatDurationOf t) i hi3 hi2]
    unfold dispatchOffsetSeconds beatsToSeconds
    dsimp only
    ring

/-- Witness for C1: the spec's example score [{C4,0,1},{E4,0,1},{G4,1,1}]
at 120 bpm yields three triggers at session-relative 0, 0 and 0.5
seconds. -/
theorem C1_trigger_instants_witness :
    ((startPlayback (mkIdleState exampleScore 120) 0 true).1.timeouts.length
      = exampleScore.notes.length) ∧
    ((startPlayback (mkIdleState exampleScore 120) 0 true).1.timeouts.map
      dispatchOffsetSeconds) = [0, 0, 1/2] :=
  ⟨(C1_trigger_instants (mkIdleState exampleScore 120) exampleScore 0 rfl rfl).1,
   by norm_num [startPlayback, mkIdleState, exampleScore, scheduleTriggers,
     dispatchOffsetSeconds, beatDurationOf]⟩

/-! ## C3: what a second start call actually does -/

/-- The state after two `startPlayback` calls in rapid succession on the
same loaded one-note score (a double-click with no intervening stop). -/
def doubleStartState : AppState :=
  (startPlayback (startPlayback (mkIdleState oneNoteScore 120) 0 true).1 0 true).1

/-- Counterexample to C3: two rapid `startPlayback` calls on a one-note
score leave TWO pending triggers, not one, and both — the superseded
first call's included — still invoke the Sound Renderer when their timers
fire, because `startPlayback` performs no stop sequence. -/
theorem C3_counterexample :
    oneNoteScore.notes.length = 1 ∧
    doubleStartState.timeouts.length = 2 ∧
    (doubleStartState.timeouts.map fun trg => fireTrigger doubleStartState trg 0)
      = [some ("G5", 0, 1/2), some ("G5", 0, 1/2)] := by
  refine ⟨rfl, rfl, ?_⟩
  norm_num [doubleStartState, startPlayback, mkIdleState, oneNoteScore,
    scheduleTriggers, fireTrigger, beatDurationOf]

/-- C3 amended: `startPlayback` does not tear down a prior session.  A
start call while triggers are pending keeps every prior pending trigger
(the timeout list is the old list with the new triggers appended), leaves
the playing flag set, and the prior triggers still produce Sound Renderer
invocations when they fire. -/
theorem C3_amended (st : AppState) (s : Score) (now : ℚ)
    (hs : st.score = some s) :
    ((startPlayback st now true).1.timeouts.take st.timeouts.length
      = st.timeouts) ∧
    ((startPlayback st now true).1.timeouts.length
      = st.timeouts.length + s.notes.length) ∧
    (startPlayback st now true).1.isPlayingRef = true ∧
    ∀ trg ∈ st.timeouts, ∀ now2 : ℚ,
      fireTrigger (startPlayback st now true).1 trg now2
        = some (trg.note.pitch, now2, trg.note.duration * trg.beatDuration) := by
  obtain ⟨t, sc, p, pr, stt, ct, tm⟩ := st
  simp only at hs
  subst hs
  refine ⟨?_, ?_, ?_, ?_⟩
  · simp [startPlayback, List.take_left]
  · simp [startPlayback, scheduleTriggers]
  · simp [startPlayback]
  · intro trg _ now2
    simp [startPlayback, fireTrigger]

/-- Witness for C3's amended statement, at the double-click input: the
second call appends to the first call's single pending trigger. -/
theorem C3_amended_witness :
    ((startPlayback (startPlayback (mkIdleState oneNoteScore 120) 0 true).1
        0 true).1.timeouts.length
      = (startPlayback (mkIdleState oneNoteScore 120) 0 true).1.timeouts.length
        + oneNoteScore.notes.length) :=
  (C3_amended (startPlayback (mkIdleState oneNoteScore 120) 0 true).1
    oneNoteScore 0 rfl).2.1

/-! ## C4: completion detection -/

/-- The session closure created by starting the unsorted two-note score at
60 bpm. -/
def unsortedSession : Session := ⟨beatDurationOf 60, unsortedScore.notes⟩

/-- Counterexample to C4: the code compares elapsed beats against the LAST
note in list order, not the maximum end beat over all notes.  For the
score [{C4,10,2},{E4,0,1}] at 60 bpm the spec's `endBeat` is 12, yet the
tick at 5 elapsed beats already signals completion (the last listed note
ends at beat 1), even though elapsed beats has not exceeded 13. -/
theorem C4_counterexample :
    (startPlayback (mkIdleState unsortedScore 60) 0 true).2
      = some unsortedSession ∧
    specEndBeat unsortedScore.notes = 12 ∧
    (progressTick (startPlayback (mkIdleState unsortedScore 60) 0 true).1
        unsortedSession 5).2 = TickOutcome.completed ∧
    ¬ (((5:ℚ) - (startPlayback (mkIdleState unsortedScore 60) 0 true).1.startTime)
        / unsortedSession.beatDuration > specEndBeat unsortedScore.notes + 1) := by
  refine ⟨rfl, ?_, ?_, ?_⟩
  · norm_num [specEndBeat, unsortedScore]
  · norm_num [progressTick, startPlayback, mkIdleState, unsortedScore,
      unsortedSession, scheduleTriggers, beatDurationOf, stopPlayback]
  · norm_num [specEndBeat, startPlayback, mkIdleState, unsortedScore,
      unsortedSession, scheduleTriggers, beatDurationOf]

/-- C4 amended: on an active tick over a session with a nonempty captured
note list, completion is signaled exactly when the elapsed beats
`(now - startTime) / beatDuration` exceed `last.time + last.duration + 1`
where `last` is the LAST note in list order (not the maximum end over all
notes); on completion the explicit-stop teardown runs (position reset to
zero, flag cleared, pending triggers cancelled) and, the flag being
cleared, every subsequent tick is inactive — so the signal happens only
once. -/
theorem C4_amended (st : AppState) (sess : Session) (now : ℚ) (lastNote : Note)
    (hp : st.isPlayingRef = true) (hl : sess.notes.getLast? = some lastNote) :
    ((progressTick st sess now).2 = TickOutcome.completed ↔
      (now - st.startTime) / sess.beatDuration
        > lastNote.time + lastNote.duration + 1) ∧
    ((progressTick st sess now).2 = TickOutcome.completed →
      (progressTick st sess now).1.currentTime = 0 ∧
      (progressTick st sess now).1.isPlayingRef = false ∧
      (progressTick st sess now).1.timeouts = [] ∧
      ∀ (sess2 : Session) (now2 : ℚ),
        (progressTick (progressTick st sess now).1 sess2 now2).2
          = TickOutcome.inactive) := by
  by_cases hgt : (now - st.startTime) / sess.beatDuration
      > lastNote.time + lastNote.duration + 1
  · refine ⟨by simp [progressTick, hp, hl, hgt], fun _ => ?_⟩
    refine ⟨?_, ?_, ?_, ?_⟩
    · simp [progressTick, hp, hl, hgt, stopPlayback]
    · simp [progressTick, hp, hl, hgt, stopPlayback]
    · simp [progressTick, hp, hl, hgt, stopPlayback]
    · intro sess2 now2
      simp [progressTick, hp, hl, hgt, stopPlayback]
  · refine ⟨by simp [progressTick, hp, hl, hgt], fun hc => ?_⟩
    exfalso
    revert hc
    simp [progressTick, hp, hl, hgt]

/-- Witness for C4's amended statement at the spec's own example: score
{A4,10,2} at 60 bpm, tick at 13.5 elapsed seconds (= 13.5 beats > 13). -/
theorem C4_amended_witness :
    (progressTick (startPlayback (mkIdleState a4Score 60) 0 true).1
        ⟨beatDurationOf 60, a4Score.notes⟩ (27/2)).2 = TickOutcome.completed :=
  ((C4_amended (startPlayback (mkIdleState a4Score 60) 0 true).1
      ⟨beatDurationOf 60, a4Score.notes⟩ (27/2) ⟨"A4", 10, 2⟩ rfl rfl).1).mpr
    (by norm_num [startPlayback, mkIdleState, beatDurationOf])

/-! ## C5: empty score -/

/-- C5 (code bug): starting playback on an empty-notes score schedules zero
triggers, but the very first progress tick — and every later one — reads
`score.notes[score.notes.length - 1]` of the empty list (`undefined`) and
then its `.time` field, a TypeError; completion is never signaled. -/
theorem C5_empty_score_crashes :
    (startPlayback (mkIdleState emptyScore 120) 0 true).1.timeouts = [] ∧
    (startPlayback (mkIdleState emptyScore 120) 0 true).2
      = some ⟨beatDurationOf 120, []⟩ ∧
    (progressTick (startPlayback (mkIdleState emptyScore 120) 0 true).1
        ⟨beatDurationOf 120, []⟩ 0).2 = TickOutcome.crashed ∧
    ∀ now : ℚ,
      (progressTick (startPlayback (mkIdleState emptyScore 120) 0 true).1
          ⟨beatDurationOf 120, []⟩ now).2 ≠ TickOutcome.completed := by
  refine ⟨rfl, rfl, ?_, ?_⟩
  · simp [progressTick, startPlayback, mkIdleState, emptyScore, scheduleTriggers]
  · intro now
    simp [progressTick, startPlayback, mkIdleState, emptyScore, scheduleTriggers]

/-! ## C6: no tempo validation exists -/

/-- Counterexample to C6: starting at bpm = −60 (non-positive) raises no
`InvalidTempo` condition — the session proceeds to Playing with a trigger
scheduled, instead of staying Idle with none. -/
theorem C6_counterexample :
    (-60 : ℚ) ≤ 0 ∧
    (startPlayback (mkIdleState oneNoteScore (-60)) 0 true).1.isPlaying = true ∧
    (startPlayback (mkIdleState oneNoteScore (-60)) 0 true).1.timeouts.length
      = 1 := by
  refine ⟨by norm_num, rfl, rfl⟩

/-- C6 amended: the code never inspects the tempo.  For EVERY tempo value,
including non-positive ones, `startPlayback` computes
`beatDuration = 60 / tempo`, transitions to Playing and schedules one
trigger per note; no `InvalidTempo` condition exists. -/
theorem C6_amended (st : AppState) (s : Score) (now : ℚ)
    (hs : st.score = some s) :
    (startPlayback st now true).1.isPlaying = true ∧
    (startPlayback st now true).1.timeouts.length
      = st.timeouts.length + s.notes.length := by
  obtain ⟨t, sc, p, pr, stt, ct, tm⟩ := st
  simp only at hs
  subst hs
  exact ⟨by simp [startPlayback], by simp [startPlayback, scheduleTriggers]⟩

/-- Witness for C6's amended statement at tempo −60. -/
theorem C6_amended_witness :
    (startPlayback (mkIdleState oneNoteScore (-60)) 0 true).1.isPlaying = true ∧
    (startPlayback (mkIdleState oneNoteScore (-60)) 0 true).1.timeouts.length
      = (mkIdleState oneNoteScore (-60)).timeouts.length
        + oneNoteScore.notes.length :=
  C6_amended (mkIdleState oneNoteScore (-60)) oneNoteScore 0 rfl

/-! ## C7: no per-note validation exists -/

/-- Counterexample to C7: a note with a negative `time` field is NOT
dropped — it gets a scheduled trigger like every other note (with a
negative `setTimeout` delay), and no `MalformedNote` warning exists. -/
theorem C7_counterexample :
    malformedScore.notes = [⟨"C4", -5, 1⟩, ⟨"E4", 0, 1⟩] ∧
    ((startPlayback (mkIdleState malformedScore 120) 0 true).1.timeouts.map
        fun trg => trg.note) = malformedScore.notes ∧
    ((startPlayback (mkIdleState malformedScore 120) 0 true).1.timeouts.map
        fun trg => trg.delayMs) = [-2500, 0] := by
  refine ⟨rfl, ?_, ?_⟩
  · norm_num [startPlayback, mkIdleState, malformedScore, scheduleTriggers]
  · norm_num [startPlayback, mkIdleState, malformedScore, scheduleTriggers,
      beatDurationOf]

/-- C7 amended: the scheduling loop validates nothing: it schedules exactly
one trigger for EVERY note of the score, in list order, whatever the sign
of its timing fields, and reports no warning. -/
theorem C7_amended (st : AppState) (s : Score) (now : ℚ)
    (hs : st.score = some s) :
    ((startPlayback st now true).1.timeouts.drop st.timeouts.length).map
        (fun trg => trg.note) = s.notes := by
  obtain ⟨t, sc, p, pr, stt, ct, tm⟩ := st
  simp only at hs
  subst hs
  simp [startPlayback, scheduleTriggers, List.drop_left, List.map_map]
  exact List.map_id s.notes

/-- Witness for C7's amended statement at the malformed score. -/
theorem C7_amended_witness :
    ((startPlayback (mkIdleState malformedScore 120) 0
        true).1.timeouts.drop (mkIdleState malformedScore 120).timeouts.length).map
        (fun trg => trg.note) = malformedScore.notes :=
  C7_amended (mkIdleState malformedScore 120) malformedScore 0 rfl

/-! ## C8: the effective tempo is fixed at session start -/

/-- A progress tick never reads the `tempo` state: its outcome and the
elapsed-beats value it reports are unchanged if the tempo control is moved
after the session started. -/
lemma progressTick_tempo_independent (st : AppState) (t2 : ℚ) (sess : Session)
    (now2 : ℚ) :
    (progressTick (setTempoState st t2) sess now2).2
      = (progressTick st sess now2).2 ∧
    (progressTick (setTempoState st t2) sess now2).1.currentTime
      = (progressTick st sess now2).1.currentTime := by
  by_cases hp : st.isPlayingRef
  · cases hl : sess.notes.getLast? with
    | none => simp [progressTick, setTempoState, hp, hl]
    | some lastNote =>
      by_cases hgt : (now2 - st.startTime) / sess.beatDuration
          > lastNote.time + lastNote.duration + 1
      · simp [progressTick, setTempoState, hp, hl, hgt, stopPlayback]
      · simp [progressTick, setTempoState, hp, hl, hgt]
  · simp [progressTick, setTempoState, hp]

/-- C8: exactly one beat duration, `60 / tempo` read once at start, governs
the whole session: the created interval closure captures it, every trigger
scheduled by this call captures the same value and derives its delay from
it (and its renderer note duration, computed at fire time, uses the
trigger's captured value), and a later tempo change alters neither the
pending triggers nor any progress tick's outcome or reported position. -/
theorem C8_tempo_fixed (st : AppState) (s : Score) (sess : Session) (now : ℚ)
    (hs : st.score = some s)
    (hsess : (startPlayback st now true).2 = some sess) :
    sess.beatDuration = beatDurationOf st.tempo ∧
    (∀ trg ∈ (startPlayback st now true).1.timeouts.drop st.timeouts.length,
      trg.beatDuration = sess.beatDuration ∧
      trg.delayMs = trg.note.time * sess.beatDuration * 1000) ∧
    ∀ t2 now2 : ℚ,
      (setTempoState (startPlayback st now true).1 t2).timeouts
        = (startPlayback st now true).1.timeouts ∧
      (progressTick (setTempoState (startPlayback st now true).1 t2) sess now2).2
        = (progressTick (startPlayback st now true).1 sess now2).2 ∧
      (progressTick (setTempoState (startPlayback st now true).1 t2) sess
          now2).1.currentTime
        = (progressTick (startPlayback st now true).1 sess now2).1.currentTime := by
  obtain ⟨t, sc, p, pr, stt, ct, tm⟩ := st
  simp only at hs
  subst hs
  have hsess2 : (some { beatDuration := beatDurationOf t, notes := s.notes }
      : Option Session) = some sess := by
    rw [← hsess]
    rfl
  have hbd : sess.beatDuration = beatDurationOf t := by
    cases hsess2
    rfl
  refine ⟨hbd, ?_, ?_⟩
  · intro trg htrg
    have htrg2 : trg ∈ scheduleTriggers s.notes (beatDurationOf t) := by
      simpa [startPlayback, List.drop_left] using htrg
    simp only [scheduleTriggers, List.mem_map] at htrg2
    obtain ⟨n, _, rfl⟩ := htrg2
    exact ⟨hbd.symm, by rw [hbd]⟩
  · intro t2 now2
    exact ⟨rfl,
      (progressTick_tempo_independent _ t2 sess now2).1,
      (progressTick_tempo_independent _ t2 sess now2).2⟩

/-- Witness for C8 at the example score and tempo 120. -/
theorem C8_tempo_fixed_witness :
    Session.beatDuration ⟨beatDurationOf 120, exampleScore.notes⟩
      = beatDurationOf (mkIdleState exampleScore 120).tempo :=
  (C8_tempo_fixed (mkIdleState exampleScore 120) exampleScore
    ⟨beatDurationOf 120, exampleScore.notes⟩ 0 rfl rfl).1
